import Mathlib

/-!
Verification of the contact-form submission handlers of the
meekertechnologies-site repository.

Two handlers are embedded:
* `runContact` — the full Azure Function (source file `src/unnamed/part_000`):
  CORS preflight, honeypot short-circuit, required-field and email-format
  validation, Microsoft Graph client-credentials token fetch and mail send
  with swallowed failures, and an outer catch-all returning a generic 500.
* `simpleContact` — the simpler handler in `src/api/contact/index.js`:
  required-field and email-format validation only.

External effects (the token endpoint, the mail-send endpoint, environment
variables, and the possibility of an unexpected runtime exception inside the
outer try block) are supplied through an explicit `Env`; the outbound calls
the handler performs are returned as a trace of `Call` values.
-/

/-- JavaScript truthiness of an optional string field: a field is truthy
iff it is present and non-empty (absent ↦ `undefined`, falsy). -/
def truthy : Option String → Bool
  | none => false
  | some s => s ≠ ""

/-- JavaScript `a || b` on optional strings: yields `a` when `a` is truthy,
otherwise `b`. -/
def jsOr (a b : Option String) : Option String :=
  if truthy a then a else b

/-- JavaScript `v || d` where `d : String` is a non-empty default, as used for
`process.env.SENDER_EMAIL || 'adam@adammeeker.com'`. -/
def strOrDefault (o : Option String) (d : String) : String :=
  match o with
  | some s => if s = "" then d else s
  | none => d

/-- The single-quote character, written by code point. -/
def quoteChar : Char := Char.ofNat 39

/-- The HTML entity for a single character, as in the `htmlEntities` table of
`escapeHtml`: the five special characters map to their entities, every other
character to itself. -/
def htmlEntity (c : Char) : List Char :=
  if c = '&' then "&amp;".data
  else if c = '<' then "&lt;".data
  else if c = '>' then "&gt;".data
  else if c = '"' then "&quot;".data
  else if c = quoteChar then '&' :: '#' :: '3' :: '9' :: ';' :: []
  else [c]

/-- `escapeHtml` from `src/unnamed/part_000`: falsy input (the empty string)
returns the empty string; otherwise each occurrence of one of the five
special characters is replaced by its HTML entity (the global regex replace
`/[&<>"']/g` applied character by character). -/
def escapeHtml (s : String) : String :=
  if s = "" then ""
  else ⟨s.data.flatMap htmlEntity⟩

/-- Whether a character matches the JavaScript regex class `\s`. -/
def isJsSpace (c : Char) : Bool :=
  let n := c.toNat
  n = 0x09 || n = 0x0a || n = 0x0b || n = 0x0c || n = 0x0d || n = 0x20 ||
  n = 0xa0 || n = 0x1680 || (decide (0x2000 ≤ n) && decide (n ≤ 0x200a)) ||
  n = 0x2028 || n = 0x2029 || n = 0x202f || n = 0x205f || n = 0x3000 ||
  n = 0xfeff

/-- Whether a character matches the regex class `[^\s@]`. -/
def isEmailChar (c : Char) : Bool :=
  !isJsSpace c && c ≠ '@'

/-- Whether a character list matches `[^\s@]+\.[^\s@]+`: all characters are
in the class (the dot itself is), and some dot occurs strictly inside. -/
def matchesDomain (b : List Char) : Bool :=
  b.all isEmailChar &&
  (List.range b.length).any fun j =>
    decide (0 < j) && decide (j + 1 < b.length) && b.getD j ' ' = '.'

/-- The test `emailRegex.test(email)` for
`/^[^\s@]+@[^\s@]+\.[^\s@]+$/`: the string decomposes as a non-empty run of
`[^\s@]` characters, an `@`, and a tail matching `[^\s@]+\.[^\s@]+`. -/
def emailRegexTest (s : String) : Bool :=
  let cs := s.data
  (List.range cs.length).any fun i =>
    cs.getD i ' ' = '@' && decide (0 < i) &&
    (cs.take i).all isEmailChar &&
    matchesDomain (cs.drop (i + 1))

/-- The request headers the handler reads: `req.headers.origin` and
`req.headers.Origin` (the latter modelled as `originCap`, since the lookup
is case-sensitive). -/
structure HeaderBag where
  origin : Option String
  originCap : Option String
deriving DecidableEq, Repr

/-- The request body fields destructured by both handlers; every field may be
absent. `interests` is a string array when present (the code additionally
guards with `Array.isArray`). -/
structure Body where
  name : Option String
  email : Option String
  company : Option String
  interests : Option (List String)
  message : Option String
  honeypot : Option String
deriving DecidableEq, Repr

/-- The body with every field absent, the `{}` of `req.body || {}`. -/
def emptyBody : Body := ⟨none, none, none, none, none, none⟩

/-- An incoming HTTP request as the handlers consume it. -/
structure Req where
  method : String
  headers : HeaderBag
  body : Option Body
deriving DecidableEq, Repr

/-- A JSON response body: the handlers set some of the fields `success`,
`message`, `error`, `note`. -/
structure RespBody where
  success : Option Bool
  message : Option String
  error : Option String
  note : Option String
deriving DecidableEq, Repr

/-- An HTTP response: status, headers and optional JSON body (the 204
preflight response carries no body). -/
structure Response where
  status : Nat
  headers : List (String × String)
  body : Option RespBody
deriving DecidableEq, Repr

/-- An outbound call performed by the handler: a token request to the
identity endpoint (`getAccessToken`), or a mail-send request
(`sendEmail accessToken fromEmail toEmail subject htmlBody`). -/
inductive Call where
  | getToken : Call
  | send (accessToken fromEmail toEmail subject htmlBody : String) : Call
deriving DecidableEq, Repr

/-- Whether a call is a mail-send request. -/
def Call.isSend : Call → Bool
  | .send .. => true
  | .getToken => false

/-- Whether a call is a token request. -/
def Call.isToken : Call → Bool
  | .getToken => true
  | .send .. => false

deriving instance DecidableEq for Except

/-- The handler's environment: the outcome of the token fetch
(`Except.error` when `getAccessToken` throws, `Except.ok token` otherwise),
the outcome of the mail send, the `SENDER_EMAIL` and `OWNER_EMAIL`
environment variables, and an optional unexpected exception raised inside
the outer try block (modelling any runtime error outside the guarded
token/mail-send step). -/
structure Env where
  tokenRes : Except String String
  sendRes : Except String Unit
  senderEmail : Option String
  ownerEmail : Option String
  unexpected : Option String
deriving DecidableEq, Repr

/-- A handler outcome: the response written to `context.res` and the trace
of outbound calls performed, in order. -/
structure HandlerResult where
  resp : Response
  calls : List Call
deriving DecidableEq, Repr

/-- The CORS allowlist of the full handler. -/
def allowedOrigins : List String :=
  ["https://meekertechnologies.com",
   "https://www.meekertechnologies.com",
   "https://witty-hill-016919110.1.azurestaticapps.net"]

/-- `req.headers.origin || req.headers.Origin`. -/
def reqOrigin (req : Req) : Option String :=
  jsOr req.headers.origin req.headers.originCap

/-- `allowedOrigins.includes(origin) ? origin : allowedOrigins[0]`. -/
def corsOriginOf (req : Req) : String :=
  match reqOrigin req with
  | some o => if o ∈ allowedOrigins then o else allowedOrigins.headD ""
  | none => allowedOrigins.headD ""

/-- The three CORS headers attached to every response. -/
def corsHeadersOf (req : Req) : List (String × String) :=
  [("Access-Control-Allow-Origin", corsOriginOf req),
   ("Access-Control-Allow-Methods", "POST, OPTIONS"),
   ("Access-Control-Allow-Headers", "Content-Type")]

/-- The headers of every non-preflight response:
`{ 'Content-Type': 'application/json', ...corsHeaders }`. -/
def jsonHeadersOf (req : Req) : List (String × String) :=
  ("Content-Type", "application/json") :: corsHeadersOf req

/-- The success message sent on the 200 responses. -/
def thankYouMsg : String :=
  "Thank you for your inquiry. We will be in touch within 24 hours."

/-- The 200 body of the success and honeypot branches. -/
def successBody : RespBody :=
  ⟨some true, some thankYouMsg, none, none⟩

/-- The 200 body returned when the token fetch or the mail send failed:
success with a delivery note, mentioning nothing of the error. -/
def swallowedBody : RespBody :=
  ⟨some true, some thankYouMsg, none, some "Email delivery may be delayed."⟩

/-- The 400 body for missing required fields (full handler). -/
def requiredBody : RespBody :=
  ⟨some false, none, some "Name, email, and message are required", none⟩

/-- The 400 body for a malformed email address (full handler). -/
def invalidEmailBody : RespBody :=
  ⟨some false, none, some "Invalid email format", none⟩

/-- The generic 500 body of the outer catch block. -/
def genericErrorBody : RespBody :=
  ⟨some false, none,
   some "Unable to process your request. Please try again later.", none⟩

/-- `Array.isArray(interests) && interests.length > 0 ? interests.join(', ')
: 'Not specified'`. -/
def interestsTextOf (interests : Option (List String)) : String :=
  match interests with
  | some l => if l.length > 0 then String.intercalate ", " l else "Not specified"
  | none => "Not specified"

/-- The email subject composed from the escaped interests text and name. -/
def subjectOf (safeInterests safeName : String) : String :=
  "[Meeker Technologies] " ++ safeInterests ++ " - from " ++ safeName

/-- The HTML email body template with the escaped fields interpolated, as in
the template literal of the full handler. -/
def htmlBodyOf (safeName safeEmail safeCompany safeInterests safeMessage : String) : String :=
  "\n                <h2>New Contact Form Submission</h2>\n                <p><strong>From:</strong> "
  ++ safeName ++ " (<a href=\"mailto:" ++ safeEmail ++ "\">" ++ safeEmail
  ++ "</a>)</p>\n                <p><strong>Company:</strong> " ++ safeCompany
  ++ "</p>\n                <p><strong>Interested in:</strong> " ++ safeInterests
  ++ "</p>\n                <hr>\n                <p><strong>Message:</strong></p>\n                <p>"
  ++ safeMessage
  ++ "</p>\n                <hr>\n                <p><em>Sent from meekertechnologies.com contact form</em></p>\n            "

/-- The required-field check `!name || !email || !message` shared by both
handlers. -/
def requiredMissing (b : Body) : Bool :=
  !truthy b.name || !truthy b.email || !truthy b.message

/-- The full contact handler of `src/unnamed/part_000`, as a pure function
of the request and the environment, yielding the response together with the
trace of outbound calls. -/
def runContact (req : Req) (env : Env) : HandlerResult :=
  let ch := corsHeadersOf req
  if req.method = "OPTIONS" then
    ⟨⟨204, ch, none⟩, []⟩
  else
    let headers := jsonHeadersOf req
    match env.unexpected with
    | some _ => ⟨⟨500, headers, some genericErrorBody⟩, []⟩
    | none =>
      let b := req.body.getD emptyBody
      if truthy b.honeypot then
        ⟨⟨200, headers, some successBody⟩, []⟩
      else if requiredMissing b then
        ⟨⟨400, headers, some requiredBody⟩, []⟩
      else if !emailRegexTest (b.email.getD "") then
        ⟨⟨400, headers, some invalidEmailBody⟩, []⟩
      else
        let interestsText := interestsTextOf b.interests
        let senderEmail := strOrDefault env.senderEmail "adam@adammeeker.com"
        let ownerEmail := strOrDefault env.ownerEmail "adam@adammeeker.com"
        match env.tokenRes with
        | .error _ => ⟨⟨200, headers, some swallowedBody⟩, [.getToken]⟩
        | .ok accessToken =>
          let safeName := escapeHtml (b.name.getD "")
          let safeEmail := escapeHtml (b.email.getD "")
          let safeCompany := escapeHtml (strOrDefault b.company "Not provided")
          let safeInterests := escapeHtml interestsText
          let safeMessage := (escapeHtml (b.message.getD "")).replace "\n" "<br>"
          let subject := subjectOf safeInterests safeName
          let htmlBody :=
            htmlBodyOf safeName safeEmail safeCompany safeInterests safeMessage
          let calls :=
            [Call.getToken,
             Call.send accessToken senderEmail ownerEmail subject htmlBody]
          match env.sendRes with
          | .error _ => ⟨⟨200, headers, some swallowedBody⟩, calls⟩
          | .ok _ => ⟨⟨200, headers, some successBody⟩, calls⟩

/-- The simple contact handler of `src/api/contact/index.js`: validation
only, no CORS handling, no honeypot, no outbound call. -/
def simpleContact (req : Req) : Response :=
  let b := req.body.getD emptyBody
  if requiredMissing b then
    ⟨400, [], some ⟨none, none, some "Name, email, and message are required", none⟩⟩
  else if !emailRegexTest (b.email.getD "") then
    ⟨400, [], some ⟨none, none, some "Invalid email format", none⟩⟩
  else
    ⟨200, [("Content-Type", "application/json")], some successBody⟩

/-- A markup-dangerous character: one escaping must remove entirely
(the ampersand may legitimately remain, as entities contain it). -/
def isDangerous (c : Char) : Bool :=
  c == '<' || c == '>' || c == '"' || c == quoteChar

/-- A fully valid sample submission body. -/
def sampleBody : Body :=
  ⟨some "Alice", some "alice@example.com", some "ACME", some ["AI"],
   some "Hello", none⟩

/-- A valid sample request, carrying an Origin header outside the
allowlist. -/
def sampleReq : Req := ⟨"POST", ⟨some "https://evil.example", none⟩, some sampleBody⟩

/-- An environment in which both outbound calls succeed. -/
def okEnv : Env := ⟨.ok "tok", .ok (), none, none, none⟩

/-- An environment in which the token fetch throws. -/
def tokenFailEnv : Env := ⟨.error "boom", .ok (), none, none, none⟩

/-- An environment in which the mail send throws. -/
def sendFailEnv : Env := ⟨.ok "tok", .error "boom", none, none, none⟩

/-- A request whose body consists of a filled honeypot only. -/
def hpReq : Req := ⟨"POST", ⟨none, none⟩, some { emptyBody with honeypot := some "spam" }⟩

/-- A request valid except for a malformed email address. -/
def badEmailReq : Req :=
  ⟨"POST", ⟨none, none⟩, some { sampleBody with email := some "notanemail" }⟩

/-- A request with no body at all (`req.body || {}` yields the empty body). -/
def noBodyReq : Req := ⟨"POST", ⟨none, none⟩, none⟩

/-- A CORS preflight request. -/
def optionsReq : Req := ⟨"OPTIONS", ⟨none, none⟩, none⟩

/-- An environment in which processing raises an unexpected exception. -/
def crashEnv : Env := ⟨.ok "tok", .ok (), none, none, some "oops"⟩

/-- Each entity produced by the escaping table is free of markup-dangerous
characters; in the default branch the character itself is, by the guards. -/
theorem htmlEntity_no_dangerous (a : Char) :
    ((htmlEntity a).all fun c => !isDangerous c) = true := by
  unfold htmlEntity
  split_ifs with h1 h2 h3 h4 h5
  · decide
  · decide
  · decide
  · decide
  · decide
  · simp [isDangerous, h2, h3, h4, h5]

/-- The characters of an escaped string are the concatenation of the entity
expansions of the input characters (also for the empty string). -/
theorem escapeHtml_data (s : String) :
    (escapeHtml s).data = s.data.flatMap htmlEntity := by
  unfold escapeHtml
  split_ifs with h
  · subst h; rfl
  · rfl

/-- Every response of the full handler carries either the bare CORS headers
(preflight) or the JSON headers, which extend them. -/
theorem runContact_headers_cases (req : Req) (env : Env) :
    (runContact req env).resp.headers = corsHeadersOf req ∨
    (runContact req env).resp.headers = jsonHeadersOf req := by
  simp only [runContact]
  repeat' split
  all_goals simp

/-- The computed CORS origin always lies in the allowlist. -/
theorem corsOriginOf_mem (req : Req) : corsOriginOf req ∈ allowedOrigins := by
  unfold corsOriginOf
  rcases reqOrigin req with _ | o
  · decide
  · dsimp only
    split_ifs with h
    · exact h
    · decide

/-- C1: a non-OPTIONS request whose body has a truthy honeypot field gets a
200 success response, and neither `getAccessToken` nor `sendEmail` is
invoked, whatever the other body fields are. -/
theorem honeypot_short_circuit (req : Req) (env : Env)
    (hm : req.method ≠ "OPTIONS")
    (hu : env.unexpected = none)
    (hh : truthy ((req.body.getD emptyBody).honeypot) = true) :
    (runContact req env).resp.status = 200 ∧
    (runContact req env).resp.body = some successBody ∧
    (runContact req env).calls = [] := by
  simp [runContact, hm, hu, hh]

/-- C1 witness: a filled honeypot with every other field absent. -/
theorem honeypot_short_circuit_witness :
    hpReq.method ≠ "OPTIONS" ∧ okEnv.unexpected = none ∧
    truthy ((hpReq.body.getD emptyBody).honeypot) = true ∧
    ((runContact hpReq okEnv).resp.status = 200 ∧
     (runContact hpReq okEnv).resp.body = some successBody ∧
     (runContact hpReq okEnv).calls = []) :=
  ⟨by decide, by decide, by decide,
   honeypot_short_circuit hpReq okEnv (by decide) (by decide) (by decide)⟩

/-- C2 counterexample: on a fully valid request whose token fetch throws,
the handler performs zero mail-send calls, refuting the claim that every
valid request yields exactly one `sendEmail` call. -/
theorem valid_request_single_send_counterexample :
    sampleReq.method ≠ "OPTIONS" ∧
    truthy ((sampleReq.body.getD emptyBody).honeypot) = false ∧
    requiredMissing (sampleReq.body.getD emptyBody) = false ∧
    emailRegexTest ((sampleReq.body.getD emptyBody).email.getD "") = true ∧
    (runContact sampleReq tokenFailEnv).calls.countP (fun c => Call.isSend c) = 0 := by
  decide

/-- C2 (amended): on every valid non-OPTIONS request the handler performs
exactly one token request; and whenever the token fetch succeeds, the trace
is exactly one token request followed by one mail-send request whose subject
and HTML body are composed from the user-supplied fields passed through
`escapeHtml` (the message additionally newline-converted). -/
theorem valid_request_calls_escaped (req : Req) (env : Env)
    (hm : req.method ≠ "OPTIONS")
    (hu : env.unexpected = none)
    (hh : truthy ((req.body.getD emptyBody).honeypot) = false)
    (hp : requiredMissing (req.body.getD emptyBody) = false)
    (he : emailRegexTest ((req.body.getD emptyBody).email.getD "") = true) :
    ((runContact req env).calls.countP (fun c => Call.isToken c) = 1) ∧
    (∀ tok, env.tokenRes = .ok tok →
      (runContact req env).calls =
        [Call.getToken,
         Call.send tok (strOrDefault env.senderEmail "adam@adammeeker.com")
           (strOrDefault env.ownerEmail "adam@adammeeker.com")
           (subjectOf (escapeHtml (interestsTextOf (req.body.getD emptyBody).interests))
                      (escapeHtml ((req.body.getD emptyBody).name.getD "")))
           (htmlBodyOf (escapeHtml ((req.body.getD emptyBody).name.getD ""))
                       (escapeHtml ((req.body.getD emptyBody).email.getD ""))
                       (escapeHtml (strOrDefault (req.body.getD emptyBody).company "Not provided"))
                       (escapeHtml (interestsTextOf (req.body.getD emptyBody).interests))
                       ((escapeHtml ((req.body.getD emptyBody).message.getD "")).replace "\n" "<br>"))]) := by
  constructor
  · rcases htok : env.tokenRes with e | tok
    · simp [runContact, hm, hu, hh, hp, he, htok, List.countP, List.countP.go, Call.isToken]
    · rcases hsend : env.sendRes with e | u <;>
        simp [runContact, hm, hu, hh, hp, he, htok, hsend,
              List.countP, List.countP.go, Call.isToken]
  · intro tok htok
    rcases hsend : env.sendRes with e | u <;>
      simp [runContact, hm, hu, hh, hp, he, htok, hsend]

/-- C2 witness: the valid sample request under a succeeding environment. -/
theorem valid_request_calls_escaped_witness :
    ((runContact sampleReq okEnv).calls.countP (fun c => Call.isToken c) = 1) ∧
    (runContact sampleReq okEnv).calls =
      [Call.getToken,
       Call.send "tok" "adam@adammeeker.com" "adam@adammeeker.com"
         (subjectOf (escapeHtml "AI") (escapeHtml "Alice"))
         (htmlBodyOf (escapeHtml "Alice") (escapeHtml "alice@example.com")
           (escapeHtml "ACME") (escapeHtml "AI")
           ((escapeHtml "Hello").replace "\n" "<br>"))] :=
  ⟨(valid_request_calls_escaped sampleReq okEnv (by decide) (by decide) (by decide)
      (by decide) (by decide)).1,
   (valid_request_calls_escaped sampleReq okEnv (by decide) (by decide) (by decide)
      (by decide) (by decide)).2 "tok" rfl⟩

/-- C3: on a valid request whose token fetch or mail send throws, the
handler still answers 200 with `success: true`; the body is the fixed
constant `swallowedBody`, so no part of the thrown error reaches the
response. -/
theorem swallowed_failure_success (req : Req) (env : Env)
    (hm : req.method ≠ "OPTIONS")
    (hu : env.unexpected = none)
    (hh : truthy ((req.body.getD emptyBody).honeypot) = false)
    (hp : requiredMissing (req.body.getD emptyBody) = false)
    (he : emailRegexTest ((req.body.getD emptyBody).email.getD "") = true)
    (hf : (∃ e, env.tokenRes = .error e) ∨
          (∃ t e, env.tokenRes = .ok t ∧ env.sendRes = .error e)) :
    (runContact req env).resp.status = 200 ∧
    (runContact req env).resp.body = some swallowedBody ∧
    swallowedBody.success = some true := by
  rcases hf with ⟨e, he'⟩ | ⟨t, e, ht, hs⟩
  · refine ⟨?_, ?_, rfl⟩ <;> simp [runContact, hm, hu, hh, hp, he, he']
  · refine ⟨?_, ?_, rfl⟩ <;> simp [runContact, hm, hu, hh, hp, he, ht, hs]

/-- C3 witness: a valid request with a failing token fetch. -/
theorem swallowed_failure_success_witness :
    (∃ e, tokenFailEnv.tokenRes = .error e) ∧
    ((runContact sampleReq tokenFailEnv).resp.status = 200 ∧
     (runContact sampleReq tokenFailEnv).resp.body = some swallowedBody ∧
     swallowedBody.success = some true) :=
  ⟨⟨"boom", rfl⟩,
   swallowed_failure_success sampleReq tokenFailEnv (by decide) (by decide)
     (by decide) (by decide) (by decide) (.inl ⟨"boom", rfl⟩)⟩

/-- C4 counterexample: a request missing name, email and message but whose
honeypot is filled returns 200, not 400 — the honeypot check precedes
required-field validation. -/
theorem missing_fields_honeypot_counterexample :
    hpReq.method ≠ "OPTIONS" ∧
    truthy ((hpReq.body.getD emptyBody).name) = false ∧
    truthy ((hpReq.body.getD emptyBody).email) = false ∧
    truthy ((hpReq.body.getD emptyBody).message) = false ∧
    (runContact hpReq okEnv).resp.status = 200 := by
  decide

/-- C4 (amended): a non-OPTIONS request with an empty honeypot that is
missing name, email, or message returns 400 with an error message; the
simple handler returns 400 on such a body unconditionally. -/
theorem missing_fields_400 (req : Req) (env : Env)
    (hm : req.method ≠ "OPTIONS")
    (hu : env.unexpected = none)
    (hh : truthy ((req.body.getD emptyBody).honeypot) = false)
    (hmiss : requiredMissing (req.body.getD emptyBody) = true) :
    (runContact req env).resp.status = 400 ∧
    (runContact req env).resp.body = some requiredBody ∧
    (simpleContact req).status = 400 := by
  constructor
  · simp [runContact, hm, hu, hh, hmiss]
  constructor
  · simp [runContact, hm, hu, hh, hmiss]
  · simp [simpleContact, hmiss]

/-- C4 witness: a request with no body at all. -/
theorem missing_fields_400_witness :
    requiredMissing (noBodyReq.body.getD emptyBody) = true ∧
    ((runContact noBodyReq okEnv).resp.status = 400 ∧
     (runContact noBodyReq okEnv).resp.body = some requiredBody ∧
     (simpleContact noBodyReq).status = 400) :=
  ⟨by decide,
   missing_fields_400 noBodyReq okEnv (by decide) (by decide) (by decide) (by decide)⟩

/-- C5: with honeypot empty and the required fields present, an email
failing the syntactic test gets 400 with the `Invalid email format` body,
and no outbound call is made. -/
theorem invalid_email_400 (req : Req) (env : Env)
    (hm : req.method ≠ "OPTIONS")
    (hu : env.unexpected = none)
    (hh : truthy ((req.body.getD emptyBody).honeypot) = false)
    (hp : requiredMissing (req.body.getD emptyBody) = false)
    (he : emailRegexTest ((req.body.getD emptyBody).email.getD "") = false) :
    (runContact req env).resp.status = 400 ∧
    (runContact req env).resp.body = some invalidEmailBody ∧
    (runContact req env).calls = [] := by
  simp [runContact, hm, hu, hh, hp, he]

/-- C5 witness: the request whose email address has no `@`. -/
theorem invalid_email_400_witness :
    emailRegexTest ((badEmailReq.body.getD emptyBody).email.getD "") = false ∧
    ((runContact badEmailReq okEnv).resp.status = 400 ∧
     (runContact badEmailReq okEnv).resp.body = some invalidEmailBody ∧
     (runContact badEmailReq okEnv).calls = []) :=
  ⟨by decide,
   invalid_email_400 badEmailReq okEnv (by decide) (by decide) (by decide)
     (by decide) (by decide)⟩

/-- C6: an unexpected exception inside processing yields 500 with the fixed
generic body: `success: false` and the constant message, nothing of the
exception. -/
theorem unexpected_error_500 (req : Req) (env : Env) (e : String)
    (hm : req.method ≠ "OPTIONS")
    (hu : env.unexpected = some e) :
    (runContact req env).resp.status = 500 ∧
    (runContact req env).resp.body = some genericErrorBody ∧
    genericErrorBody =
      ⟨some false, none,
       some "Unable to process your request. Please try again later.", none⟩ := by
  refine ⟨?_, ?_, rfl⟩ <;> simp [runContact, hm, hu]

/-- C6 witness: a crashing environment on the sample request. -/
theorem unexpected_error_500_witness :
    crashEnv.unexpected = some "oops" ∧
    ((runContact sampleReq crashEnv).resp.status = 500 ∧
     (runContact sampleReq crashEnv).resp.body = some genericErrorBody ∧
     genericErrorBody =
       ⟨some false, none,
        some "Unable to process your request. Please try again later.", none⟩) :=
  ⟨rfl, unexpected_error_500 sampleReq crashEnv "oops" (by decide) rfl⟩

/-- C7: the output of `escapeHtml` contains none of the four markup
characters the entity table eliminates, equals the input with each special
character expanded to its HTML entity, and is empty on the empty (falsy)
input. -/
theorem escapeHtml_escapes (s : String) :
    ((escapeHtml s).data.all fun c => !isDangerous c) = true ∧
    (escapeHtml s).data = s.data.flatMap htmlEntity ∧
    escapeHtml "" = "" := by
  refine ⟨?_, escapeHtml_data s, rfl⟩
  rw [escapeHtml_data, List.all_eq_true]
  intro c hc
  rw [List.mem_flatMap] at hc
  obtain ⟨a, _, ha⟩ := hc
  have h := htmlEntity_no_dangerous a
  rw [List.all_eq_true] at h
  exact h c ha

/-- C8: an OPTIONS request gets exactly the 204 response with the CORS
headers, no body, and no outbound call, independent of the body and the
environment. -/
theorem preflight_204 (req : Req) (env : Env) (hm : req.method = "OPTIONS") :
    runContact req env = ⟨⟨204, corsHeadersOf req, none⟩, []⟩ := by
  simp [runContact, hm]

/-- C8 witness: the bare preflight request. -/
theorem preflight_204_witness :
    optionsReq.method = "OPTIONS" ∧
    runContact optionsReq okEnv = ⟨⟨204, corsHeadersOf optionsReq, none⟩, []⟩ :=
  ⟨rfl, preflight_204 optionsReq okEnv rfl⟩

/-- C9: every response of the full handler carries an
`Access-Control-Allow-Origin` header whose value lies in the allowlist, and
a request origin outside the allowlist is never reflected: the header then
holds the first allowlisted origin. -/
theorem cors_header_allowlisted (req : Req) (env : Env) :
    ((runContact req env).resp.headers.lookup "Access-Control-Allow-Origin"
      = some (corsOriginOf req)) ∧
    corsOriginOf req ∈ allowedOrigins ∧
    (∀ o, reqOrigin req = some o → o ∉ allowedOrigins →
      corsOriginOf req = "https://meekertechnologies.com") := by
  refine ⟨?_, corsOriginOf_mem req, ?_⟩
  · rcases runContact_headers_cases req env with h | h <;>
      rw [h] <;> simp [corsHeadersOf, jsonHeadersOf, List.lookup]
  · intro o ho hno
    simp only [corsOriginOf, ho]
    rw [if_neg hno]
    rfl

/-- C9 witness: the sample request carries an origin outside the allowlist,
which is not reflected back. -/
theorem cors_header_allowlisted_witness :
    ((runContact sampleReq okEnv).resp.headers.lookup "Access-Control-Allow-Origin"
      = some (corsOriginOf sampleReq)) ∧
    corsOriginOf sampleReq ∈ allowedOrigins ∧
    corsOriginOf sampleReq = "https://meekertechnologies.com" :=
  ⟨(cors_header_allowlisted sampleReq okEnv).1,
   (cors_header_allowlisted sampleReq okEnv).2.1,
   (cors_header_allowlisted sampleReq okEnv).2.2 "https://evil.example" rfl (by decide)⟩

/-- C10: on a non-OPTIONS request with empty honeypot (and no unexpected
exception) the full and the simple handler return the same status: 400
exactly when a required field is missing or the email fails the syntactic
test, 200 otherwise. -/
theorem handlers_agree_status (req : Req) (env : Env)
    (hm : req.method ≠ "OPTIONS")
    (hu : env.unexpected = none)
    (hh : truthy ((req.body.getD emptyBody).honeypot) = false) :
    ((runContact req env).resp.status = (simpleContact req).status) ∧
    ((simpleContact req).status = 400 ↔
      (requiredMissing (req.body.getD emptyBody) = true ∨
       emailRegexTest ((req.body.getD emptyBody).email.getD "") = false)) ∧
    ((simpleContact req).status = 200 ↔
      ¬(requiredMissing (req.body.getD emptyBody) = true ∨
        emailRegexTest ((req.body.getD emptyBody).email.getD "") = false)) := by
  rcases hmiss : requiredMissing (req.body.getD emptyBody) with _ | _
  · rcases hemail : emailRegexTest ((req.body.getD emptyBody).email.getD "") with _ | _
    · simp [runContact, simpleContact, hm, hu, hh, hmiss, hemail]
    · rcases htok : env.tokenRes with e | tok
      · simp [runContact, simpleContact, hm, hu, hh, hmiss, hemail, htok]
      · rcases hsend : env.sendRes with e | u <;>
          simp [runContact, simpleContact, hm, hu, hh, hmiss, hemail, htok, hsend]
  · simp [runContact, simpleContact, hm, hu, hh, hmiss]

/-- C10 witness: the valid sample request, on which both handlers answer
200. -/
theorem handlers_agree_status_witness :
    truthy ((sampleReq.body.getD emptyBody).honeypot) = false ∧
    ((runContact sampleReq okEnv).resp.status = (simpleContact sampleReq).status ∧
     ((simpleContact sampleReq).status = 400 ↔
       (requiredMissing (sampleReq.body.getD emptyBody) = true ∨
        emailRegexTest ((sampleReq.body.getD emptyBody).email.getD "") = false)) ∧
     ((simpleContact sampleReq).status = 200 ↔
       ¬(requiredMissing (sampleReq.body.getD emptyBody) = true ∨
         emailRegexTest ((sampleReq.body.getD emptyBody).email.getD "") = false))) :=
  ⟨by decide, handlers_agree_status sampleReq okEnv (by decide) (by decide) (by decide)⟩
